import Mathlib

/-!
Verification of the `msnmp` SNMPv3 client core (`src/msnmp/src/client.rs`).

The embedding models `Client::send_request`, `Client::send_msg` and
`Client::recv_msg` as pure functions over an explicit environment that
supplies the outcomes of the socket operations (`Env`).  The external
collaborator crates (`snmp_mp`, `snmp_usm`) are out of the repository's
core (spec §6): messages are modelled structurally (`SnmpMsg`,
`SecurityParams`), byte-level codecs are abstracted away, and the
outcome of signature verification for an incoming datagram is part of
the environment (`Datagram.auth`), matching the collaborator contract
`verify(bytes, engine-id, boots, time) → success | NotInTimeWindow |
other-failure`.

Each function additionally returns a list of instrumentation `Event`s
recording which protocol operations ran, in order; the ordering and
counting claims are stated over this trace.
-/

namespace Msnmp

/-- The `std::io::ErrorKind` values distinguished by `client.rs`
(`WouldBlock`, `TimedOut`, `ConnectionReset`, `InvalidData`); every
other kind is modelled as `other n`. -/
inductive ErrKind where
  | wouldBlock
  | timedOut
  | connectionReset
  | invalidData
  | other (n : Nat)
deriving DecidableEq, Repr

/-- Error kind produced by the `auth?` conversion of a non-time-window
`snmp_usm::SecurityError` into an `io::Error` (external `From` impl;
distinct from `connectionReset`). -/
def authErrKind : ErrKind := .other 0

/-- Error kind produced by a failing `SnmpMsg::decode` (external codec;
distinct from `connectionReset`). -/
def decodeMsgErrKind : ErrKind := .other 1

/-- Error kind produced by a failing `SecurityParams::decode` (external
codec; distinct from `connectionReset`). -/
def decodeSecParamsErrKind : ErrKind := .other 2

/-- Error kind produced by a failing `decrypt_scoped_pdu` (external
codec; distinct from `connectionReset`). -/
def decryptErrKind : ErrKind := .other 3

/-- `snmp_usm::SecurityParams`: username, engine id, engine boots/time
and the auth/priv parameter byte strings.  Bytes are modelled as
`List Nat`. -/
structure SecurityParams where
  username : List Nat
  engine_id : List Nat
  engine_boots : Nat
  engine_time : Nat
  auth_params : List Nat
  priv_params : List Nat
deriving DecidableEq, Repr

/-- The scoped-PDU region of a message: either a decoded plaintext PDU
(modelled by the list of its variable bindings, each represented by its
object-identifier name) or still-encrypted bytes. -/
inductive ScopedPduData where
  | plaintextPdu (var_binds : List (List Nat))
  | encryptedPdu (data : List Nat)
deriving DecidableEq, Repr

/-- `ScopedPduData::plaintext`: the decoded PDU if available. -/
def ScopedPduData.plaintext : ScopedPduData → Option (List (List Nat))
  | .plaintextPdu v => some v
  | .encryptedPdu _ => none

/-- `snmp_mp::SnmpMsg`: message id, the (decoded) security-parameter
field (`none` models bytes `SecurityParams::decode` rejects), the
authenticated flag, and the scoped-PDU region. -/
structure SnmpMsg where
  id : Nat
  security_params : Option SecurityParams
  auth_flag : Bool
  scoped_pdu_data : ScopedPduData
deriving DecidableEq, Repr

/-- `snmp_usm::AuthKey`, reduced to what `client.rs` observes of it on
the outbound path: whether `auth_out_msg` succeeds (`out_err = none`)
or fails with some error kind.  The inbound verification outcome is
carried per datagram by the environment. -/
structure AuthKey where
  out_err : Option ErrKind
deriving DecidableEq, Repr

/-- `snmp_usm::PrivKey` capability: `encrypt(plaintext, params, salt) →
(ciphertext, priv_params)` and `decrypt(ciphertext, params) →
plaintext-or-failure` (spec §6). -/
structure PrivKey where
  encrypt : List (List Nat) → SecurityParams → Nat → List Nat × List Nat
  decrypt : List Nat → SecurityParams → Option (List (List Nat))

/-- Modelled from the spec: `Session` (the file `src/msnmp/src/session.rs`
is not among the sources; only its accessors and mutators are used by
`client.rs`).  Fields per spec §3/§4.1: username, remote engine id,
engine boots/time counters, optional auth key, optional privacy key
plus salt.  `set_engine_boots`/`set_engine_time` are plain field
overwrites ("overwrite unconditionally — no local clock
reconciliation").  The salt-stepping of `Step` is not observable by any
claim and is not modelled. -/
structure Session where
  username : List Nat
  engine_id : List Nat
  engine_boots : Nat
  engine_time : Nat
  auth_key : Option AuthKey
  priv_key_and_salt : Option (PrivKey × Nat)

/-- Result of `auth_key.auth_in_msg` on a received datagram:
success, `SecurityError::NotInTimeWindow`, or any other verification
failure. -/
inductive AuthOutcome where
  | ok
  | notInTimeWindow
  | authErr
deriving DecidableEq, Repr

/-- One datagram delivered by the environment: the outcome signature
verification would produce for it, and the message `SnmpMsg::decode`
yields from its bytes (`none` models undecodable bytes). -/
structure Datagram where
  auth : AuthOutcome
  decoded : Option SnmpMsg
deriving DecidableEq, Repr

/-- Outcome the environment assigns to one `socket.send` call. -/
inductive SendOutcome where
  | sendOk (n : Nat)
  | sendErr (k : ErrKind)
deriving DecidableEq, Repr

/-- Outcome the environment assigns to one `socket.recv` call. -/
inductive RecvOutcome where
  | recvErr (k : ErrKind)
  | recvData (d : Datagram)
deriving DecidableEq, Repr

/-- The socket environment: the outcomes of successive `send` calls and
of successive `recv` calls.  An exhausted list behaves like a read/write
timeout (`WouldBlock`), i.e. no further datagram ever arrives. -/
structure Env where
  sends : List SendOutcome
  recvs : List RecvOutcome

/-- Instrumentation events, in execution order. -/
inductive Event where
  | sendMsgStart (m : SnmpMsg)
  | encryptScopedPdu
  | embedSecurityParams (sp : SecurityParams)
  | setAuthFlag
  | serialize
  | sign
  | sendAttempt
  | recvAttempt
  | verifySig
  | decodeMsg
  | decodeSecParams
  | decryptPdu
  | adoptClock (boots : Nat) (time : Nat)
deriving DecidableEq, Repr

/-- Result of `recv_msg` (and of `send_request`): a response message, an
`io::Error` kind, or a panic (`unwrap` on `None`). -/
inductive RecvResult where
  | ok (m : SnmpMsg)
  | err (k : ErrKind)
  | panicked
deriving DecidableEq, Repr

/-- `MAX_RETRIES` from `client.rs`. -/
def MAX_RETRIES : Nat := 2

/-- The well-known oid `usmStatsNotInTimeWindow` = 1.3.6.1.6.3.15.1.1.2.0. -/
def oid_usm_stats_not_in_time_window : List Nat := [1, 3, 6, 1, 6, 3, 15, 1, 1, 2, 0]

/-- `SecurityParams::new()` followed by the setter chain of `send_msg`
(lines 74–80): placeholder auth params, username, engine id and the
session's current engine boots/time. -/
def build_security_params (s : Session) : SecurityParams :=
  { username := s.username
    engine_id := s.engine_id
    engine_boots := s.engine_boots
    engine_time := s.engine_time
    auth_params := []
    priv_params := [] }

/-- Pop the next send outcome; an exhausted environment behaves like a
write timeout (`WouldBlock`). -/
def nextSend : List SendOutcome → SendOutcome × List SendOutcome
  | [] => (.sendErr .wouldBlock, [])
  | o :: rest => (o, rest)

/-- Pop the next receive outcome; an exhausted environment behaves like
a read timeout (`WouldBlock`). -/
def nextRecv : List RecvOutcome → RecvOutcome × List RecvOutcome
  | [] => (.recvErr .wouldBlock, [])
  | o :: rest => (o, rest)

/-- The `for _ in 0..MAX_RETRIES` transmit loop of `send_msg`
(lines 104–115): retry on `WouldBlock`, return any other outcome
immediately, `TimedOut` once the budget is exhausted. -/
def send_loop : Nat → List SendOutcome → Except ErrKind Nat × List SendOutcome × List Event
  | 0, sends => (.error .timedOut, sends, [])
  | n + 1, sends =>
    match nextSend sends with
    | (.sendOk u, rest) => (.ok u, rest, [.sendAttempt])
    | (.sendErr k, rest) =>
      if k = ErrKind.wouldBlock then
        let out := send_loop n rest
        (out.1, out.2.1, .sendAttempt :: out.2.2)
      else (.error k, rest, [.sendAttempt])

/-- Result of `send_msg`: the `io::Result<usize>` it returns, the
message after its in-place mutations, the remaining send outcomes, and
the event trace. -/
structure SendMsgOut where
  result : Except ErrKind Nat
  msg : SnmpMsg
  sends : List SendOutcome
  trace : List Event
deriving Repr

/-- `Client::send_msg` (lines 68–116): build fresh `SecurityParams`
from the session; if a privacy key is configured, encrypt the scoped
PDU in place and record the privacy parameters; embed the encoded
security params into the message; set the auth flag if an auth key is
configured; serialize; if an auth key is configured, sign the
serialized bytes (`auth_out_msg`, which may fail); then run the
transmit retry loop. -/
def send_msg (msg : SnmpMsg) (s : Session) (sends : List SendOutcome) : SendMsgOut :=
  let sp0 := build_security_params s
  let step1 : SnmpMsg × SecurityParams × List Event :=
    match s.priv_key_and_salt with
    | some (pk, salt) =>
      match msg.scoped_pdu_data with
      | .plaintextPdu vbs =>
        ({ msg with scoped_pdu_data := .encryptedPdu (pk.encrypt vbs sp0 salt).1 },
         { sp0 with priv_params := (pk.encrypt vbs sp0 salt).2 },
         [.encryptScopedPdu])
      | .encryptedPdu _ => (msg, sp0, [.encryptScopedPdu])
    | none => (msg, sp0, [])
  let msg1 := step1.1
  let sp1 := step1.2.1
  let evs1 := step1.2.2
  let msg2 := { msg1 with security_params := some sp1 }
  let evs2 := evs1 ++ [Event.embedSecurityParams sp1]
  let step3 : SnmpMsg × List Event :=
    match s.auth_key with
    | some _ => ({ msg2 with auth_flag := true }, evs2 ++ [.setAuthFlag])
    | none => (msg2, evs2)
  let msg3 := step3.1
  let evs4 := step3.2 ++ [Event.serialize]
  match s.auth_key with
  | some ak =>
    match ak.out_err with
    | some k => ⟨.error k, msg3, sends, .sendMsgStart msg :: evs4⟩
    | none =>
      let out := send_loop MAX_RETRIES sends
      ⟨out.1, msg3, out.2.1, .sendMsgStart msg :: (evs4 ++ [.sign] ++ out.2.2)⟩
  | none =>
    let out := send_loop MAX_RETRIES sends
    ⟨out.1, msg3, out.2.1, .sendMsgStart msg :: (evs4 ++ out.2.2)⟩

/-- The decrypt step of `recv_msg` (lines 167–173): with a privacy key
configured and an encrypted scoped PDU, run `priv_key.decrypt`; a
failure surfaces as a message-level error (`?`).  Without a privacy key
the message is left as is. -/
def decrypt_scoped (s : Session) (m : SnmpMsg) (sp : SecurityParams) :
    Except ErrKind SnmpMsg × List Event :=
  match s.priv_key_and_salt with
  | some (pk, _) =>
    match m.scoped_pdu_data with
    | .encryptedPdu ct =>
      match pk.decrypt ct sp with
      | some vbs => (.ok { m with scoped_pdu_data := .plaintextPdu vbs }, [.decryptPdu])
      | none => (.error decryptErrKind, [.decryptPdu])
    | .plaintextPdu _ => (.ok m, [])
  | none => (.ok m, [])

/-- What processing one datagram does: either return from `recv_msg`
with a result and the (possibly updated) session, or discard the
datagram (`continue`) leaving the session untouched. -/
inductive StepOut where
  | ret (r : RecvResult) (s : Session)
  | mismatch

/-- Lines 160–210 of `recv_msg`, after a successful decode of the
datagram into `m` (with `nitw` the recorded not-in-time-window flag):
id check, `SecurityParams::decode`, decrypt, the rfc2574
defense-in-depth oid check (whose `unwrap`s panic when the plaintext
PDU or its first var bind is missing), the unconditional adoption of
the response clock into the session, and the final result. -/
def process_decoded (sent_msg_id : Nat) (s : Session) (nitw : Bool) (m : SnmpMsg) :
    StepOut × List Event :=
  if m.id ≠ sent_msg_id then (.mismatch, [])
  else
    match m.security_params with
    | none => (.ret (.err decodeSecParamsErrKind) s, [])
    | some sp =>
      let evs := Event.decodeSecParams :: (decrypt_scoped s m sp).2
      match (decrypt_scoped s m sp).1 with
      | .error k => (.ret (.err k) s, evs)
      | .ok m2 =>
        let early : Option RecvResult :=
          if nitw then
            match m2.scoped_pdu_data.plaintext with
            | none => some .panicked
            | some vbs =>
              match vbs.head? with
              | none => some .panicked
              | some vb0 =>
                if vb0 ≠ oid_usm_stats_not_in_time_window then some (.err .invalidData)
                else none
          else none
        match early with
        | some r => (.ret r s, evs)
        | none =>
          let s2 := { s with engine_boots := sp.engine_boots, engine_time := sp.engine_time }
          if nitw then
            (.ret (.err .connectionReset) s2,
             evs ++ [.adoptClock sp.engine_boots sp.engine_time])
          else
            (.ret (.ok m2) s2,
             evs ++ [.adoptClock sp.engine_boots sp.engine_time])

/-- Decode step (line 160) followed by `process_decoded`. -/
def decode_and_process (sent_msg_id : Nat) (s : Session) (nitw : Bool) (d : Datagram) :
    StepOut × List Event :=
  match d.decoded with
  | none => (.ret (.err decodeMsgErrKind) s, [.decodeMsg])
  | some m =>
    ((process_decoded sent_msg_id s nitw m).1,
     .decodeMsg :: (process_decoded sent_msg_id s nitw m).2)

/-- Lines 138–211 of `recv_msg`: on a received datagram, first run
signature verification when an auth key is configured —
`NotInTimeWindow` merely records a flag, any other failure returns
immediately — then decode and process. -/
def process_datagram (sent_msg_id : Nat) (s : Session) (d : Datagram) :
    StepOut × List Event :=
  match s.auth_key with
  | some _ =>
    match d.auth with
    | .authErr => (.ret (.err authErrKind) s, [.verifySig])
    | .ok =>
      ((decode_and_process sent_msg_id s false d).1,
       .verifySig :: (decode_and_process sent_msg_id s false d).2)
    | .notInTimeWindow =>
      ((decode_and_process sent_msg_id s true d).1,
       .verifySig :: (decode_and_process sent_msg_id s true d).2)
  | none => decode_and_process sent_msg_id s false d

/-- Result of `recv_msg`: the `io::Result<SnmpMsg>` (or panic), the
session after any clock adoption, the remaining receive outcomes, and
the event trace. -/
structure RecvMsgOut where
  result : RecvResult
  session : Session
  recvs : List RecvOutcome
  trace : List Event

/-- The `for _ in 0..MAX_RETRIES` receive loop of `recv_msg`
(lines 127–215): retry on `WouldBlock` and on a mismatched message id,
return any other outcome, `TimedOut` once the budget is exhausted. -/
def recv_loop (sent_msg_id : Nat) : Nat → Session → List RecvOutcome → RecvMsgOut
  | 0, s, recvs => ⟨.err .timedOut, s, recvs, []⟩
  | n + 1, s, recvs =>
    match nextRecv recvs with
    | (.recvErr k, rest) =>
      if k = ErrKind.wouldBlock then
        let out := recv_loop sent_msg_id n s rest
        { out with trace := .recvAttempt :: out.trace }
      else ⟨.err k, s, rest, [.recvAttempt]⟩
    | (.recvData d, rest) =>
      match (process_datagram sent_msg_id s d).1 with
      | .mismatch =>
        let out := recv_loop sent_msg_id n s rest
        { out with
          trace := .recvAttempt :: ((process_datagram sent_msg_id s d).2 ++ out.trace) }
      | .ret r s2 => ⟨r, s2, rest, .recvAttempt :: (process_datagram sent_msg_id s d).2⟩

/-- `Client::recv_msg` (lines 118–216). -/
def recv_msg (sent_msg_id : Nat) (s : Session) (recvs : List RecvOutcome) : RecvMsgOut :=
  recv_loop sent_msg_id MAX_RETRIES s recvs

/-- Result of `send_request`. -/
structure ReqOut where
  result : RecvResult
  session : Session
  env : Env
  trace : List Event

/-- `Client::send_request` (lines 40–66), with explicit fuel bounding
the recursion depth.  The function keeps a pre-mutation copy of the
caller's message, sends, receives, and on a `ConnectionReset` failure
from `recv_msg` (the resync signal) recursively re-invokes itself on
the retained original.  The fuel-0 result `.err (.other 99)` is a model
artifact: it is unreachable whenever the fuel exceeds the number of
receive outcomes, since every resync recursion first consumed at least
one receive outcome. -/
def send_request_fuel : Nat → SnmpMsg → Session → Env → ReqOut
  | 0, _, s, env => ⟨.err (.other 99), s, env, []⟩
  | fuel + 1, msg, s, env =>
    let original_msg := msg
    let so := send_msg msg s env.sends
    match so.result with
    | .error k => ⟨.err k, s, ⟨so.sends, env.recvs⟩, so.trace⟩
    | .ok _ =>
      let ro := recv_msg so.msg.id s env.recvs
      match ro.result with
      | .err .connectionReset =>
        let inner := send_request_fuel fuel original_msg ro.session ⟨so.sends, ro.recvs⟩
        ⟨inner.result, inner.session, inner.env, so.trace ++ ro.trace ++ inner.trace⟩
      | r => ⟨r, ro.session, ⟨so.sends, ro.recvs⟩, so.trace ++ ro.trace⟩

/-- `Client::send_request`, at fuel adequate for the environment. -/
def send_request (msg : SnmpMsg) (s : Session) (env : Env) : ReqOut :=
  send_request_fuel (env.recvs.length + 1) msg s env

/-- The messages passed into `send_msg` (one per transmission), in
order: each is the pre-mutation input of one transmit. -/
def transmitInputs (tr : List Event) : List SnmpMsg :=
  tr.filterMap fun e =>
    match e with
    | .sendMsgStart m => some m
    | _ => none

/-- The `SecurityParams` embedded into the outgoing message, one per
transmission, in order. -/
def embeddedParams (tr : List Event) : List SecurityParams :=
  tr.filterMap fun e =>
    match e with
    | .embedSecurityParams sp => some sp
    | _ => none

def isSendAttempt : Event → Bool
  | .sendAttempt => true
  | _ => false

def isRecvAttempt : Event → Bool
  | .recvAttempt => true
  | _ => false

def isSign : Event → Bool
  | .sign => true
  | _ => false

def isSerialize : Event → Bool
  | .serialize => true
  | _ => false

def isSetAuthFlag : Event → Bool
  | .setAuthFlag => true
  | _ => false

/-- Number of `socket.send` calls in a trace. -/
def countSendAttempts (tr : List Event) : Nat := (tr.filter isSendAttempt).length

/-- Number of `socket.recv` calls in a trace. -/
def countRecvAttempts (tr : List Event) : Nat := (tr.filter isRecvAttempt).length

/-- Number of signature computations in a trace. -/
def countSigns (tr : List Event) : Nat := (tr.filter isSign).length

/-- Events that can be produced by the receive path (used to show the
receive path never transmits nor embeds parameters). -/
def isRecvSide : Event → Bool
  | .recvAttempt => true
  | .verifySig => true
  | .decodeMsg => true
  | .decodeSecParams => true
  | .decryptPdu => true
  | .adoptClock _ _ => true
  | _ => false

/-- Events that are neither a transmission start nor a parameter
embedding (used to localize `transmitInputs`/`embeddedParams` to the
build phase of `send_msg`). -/
def isPlainOp : Event → Bool
  | .sendMsgStart _ => false
  | .embedSecurityParams _ => false
  | _ => true

/-- Events produced while processing a single received datagram (a
strict subset of `isRecvSide`: no `recvAttempt`). -/
def isProcessOp : Event → Bool
  | .verifySig => true
  | .decodeMsg => true
  | .decodeSecParams => true
  | .decryptPdu => true
  | .adoptClock _ _ => true
  | _ => false

/-- The session's `auth_out_msg` capability does not fail (trivially
true when no auth key is configured). -/
def signOk (s : Session) : Prop :=
  ∀ ak, s.auth_key = some ak → ak.out_err = none

/-- A datagram that triggers the rfc2574 resync path for session `s`
and sent id `sent_id`: verification reports `NotInTimeWindow`, the
message decodes with a matching id and decodable security params, the
decrypt step succeeds, and the first var bind is exactly
`usmStatsNotInTimeWindow`. -/
def resyncDatagram (s : Session) (sent_id : Nat) (d : Datagram) : Prop :=
  d.auth = .notInTimeWindow ∧
  ∃ m sp m2 vbs,
    d.decoded = some m ∧
    m.id = sent_id ∧
    m.security_params = some sp ∧
    (decrypt_scoped s m sp).1 = .ok m2 ∧
    m2.scoped_pdu_data = .plaintextPdu (oid_usm_stats_not_in_time_window :: vbs)

/-! ### Concrete scenario inputs for counterexamples and witnesses -/

/-- A caller-built request message: id 1, plaintext PDU, flag unset. -/
def cMsg : SnmpMsg :=
  { id := 1
    security_params := none
    auth_flag := false
    scoped_pdu_data := .plaintextPdu [[1, 3, 6, 1, 2, 1, 1, 1, 0]] }

/-- An auth key whose `auth_out_msg` succeeds. -/
def cAuthKey : AuthKey := { out_err := none }

/-- A session with an auth key, no privacy key, clock (4, 10). -/
def cSession : Session :=
  { username := [117, 115, 114]
    engine_id := [128, 0, 1]
    engine_boots := 4
    engine_time := 10
    auth_key := some cAuthKey
    priv_key_and_salt := none }

/-- The same session with no auth key configured. -/
def cSessionNoAuth : Session := { cSession with auth_key := none }

/-- A concrete privacy key (the collaborator functions are arbitrary
computable stand-ins; no claim depends on a cryptographic property). -/
def cPrivKey : PrivKey :=
  { encrypt := fun _ _ _ => ([42, 43], [7, 7])
    decrypt := fun _ _ => some [[1, 3, 6, 1, 2, 1, 1, 1, 0]] }

/-- The session with both an auth key and a privacy key. -/
def cSessionPriv : Session := { cSession with priv_key_and_salt := some (cPrivKey, 5) }

/-- Security params of a response claiming clock `(b, t)`. -/
def cRespParams (b t : Nat) : SecurityParams :=
  { username := [117, 115, 114]
    engine_id := [128, 0, 1]
    engine_boots := b
    engine_time := t
    auth_params := [9, 9]
    priv_params := [] }

/-- A decoded `usmStatsNotInTimeWindow` report message with clock `(b, t)`. -/
def cReportMsg (b t : Nat) : SnmpMsg :=
  { id := 1
    security_params := some (cRespParams b t)
    auth_flag := true
    scoped_pdu_data := .plaintextPdu [oid_usm_stats_not_in_time_window] }

/-- A datagram whose verification reports `NotInTimeWindow` and which
decodes to a `usmStatsNotInTimeWindow` report with clock `(b, t)`. -/
def cResyncDatagram (b t : Nat) : Datagram :=
  { auth := .notInTimeWindow, decoded := some (cReportMsg b t) }

/-- A normal response message with clock `(b, t)`. -/
def cOkMsg (b t : Nat) : SnmpMsg :=
  { id := 1
    security_params := some (cRespParams b t)
    auth_flag := true
    scoped_pdu_data := .plaintextPdu [[1, 3, 6, 1, 2, 1, 1, 1, 0]] }

/-- A datagram that verifies fine and decodes to a normal response. -/
def cOkDatagram (b t : Nat) : Datagram :=
  { auth := .ok, decoded := some (cOkMsg b t) }

/-- A response message whose scoped PDU is still encrypted. -/
def cEncMsg : SnmpMsg :=
  { id := 1
    security_params := some (cRespParams 5 102)
    auth_flag := true
    scoped_pdu_data := .encryptedPdu [42, 43] }

/-- A well-verified datagram carrying an encrypted response. -/
def cEncDatagram : Datagram := { auth := .ok, decoded := some cEncMsg }

/-- A `NotInTimeWindow` datagram whose scoped PDU is still encrypted
(no plaintext available on a session without a privacy key). -/
def cNitwEncDatagram : Datagram := { auth := .notInTimeWindow, decoded := some cEncMsg }

/-- A `NotInTimeWindow` report whose first object is not
`usmStatsNotInTimeWindow`. -/
def cWrongOidDatagram : Datagram :=
  { auth := .notInTimeWindow
    decoded := some
      { id := 1
        security_params := some (cRespParams 5 100)
        auth_flag := true
        scoped_pdu_data := .plaintextPdu [[1, 3, 6, 1, 6, 3, 15, 1, 1, 1, 0]] } }

/-- A well-formed stray datagram whose message id (99) does not match. -/
def cStrayDatagram : Datagram :=
  { auth := .ok
    decoded := some
      { id := 99
        security_params := some (cRespParams 5 100)
        auth_flag := true
        scoped_pdu_data := .plaintextPdu [[1, 3, 6, 1, 2, 1, 1, 1, 0]] } }

/-- Environment delivering two consecutive resync reports and then a
normal response, with all sends succeeding. -/
def cEnvDoubleResync : Env :=
  { sends := [.sendOk 30, .sendOk 30, .sendOk 30]
    recvs := [.recvData (cResyncDatagram 5 100), .recvData (cResyncDatagram 5 101),
              .recvData (cOkDatagram 5 102)] }

/-- Environment delivering one resync report and then a normal
response. -/
def cEnvSingleResync : Env :=
  { sends := [.sendOk 30, .sendOk 30]
    recvs := [.recvData (cResyncDatagram 5 100), .recvData (cOkDatagram 5 102)] }

/-! ### Trace bookkeeping lemmas -/

theorem transmitInputs_append (a b : List Event) :
    transmitInputs (a ++ b) = transmitInputs a ++ transmitInputs b := by
  simp [transmitInputs]

theorem embeddedParams_append (a b : List Event) :
    embeddedParams (a ++ b) = embeddedParams a ++ embeddedParams b := by
  simp [embeddedParams]

theorem transmitInputs_of_plain {tr : List Event} (h : tr.all isPlainOp = true) :
    transmitInputs tr = [] := by
  induction tr with
  | nil => rfl
  | cons e tr ih =>
    simp only [List.all_cons, Bool.and_eq_true] at h
    cases e <;> simp_all [transmitInputs, isPlainOp]

theorem embeddedParams_of_plain {tr : List Event} (h : tr.all isPlainOp = true) :
    embeddedParams tr = [] := by
  induction tr with
  | nil => rfl
  | cons e tr ih =>
    simp only [List.all_cons, Bool.and_eq_true] at h
    cases e <;> simp_all [embeddedParams, isPlainOp]

theorem recvSide_plain {tr : List Event} (h : tr.all isRecvSide = true) :
    tr.all isPlainOp = true := by
  induction tr with
  | nil => rfl
  | cons e tr ih =>
    simp only [List.all_cons, Bool.and_eq_true] at h ⊢
    refine ⟨?_, ih h.2⟩
    cases e <;> simp_all [isRecvSide, isPlainOp]

theorem send_loop_all_plain (n : Nat) (sends : List SendOutcome) :
    ((send_loop n sends).2.2).all isPlainOp = true := by
  induction n generalizing sends with
  | zero => rfl
  | succ n ih =>
    unfold send_loop
    rcases sends with _ | ⟨o, rest⟩
    · simp only [nextSend]
      rcases h : send_loop n [] with ⟨r, rest2, tr⟩
      have := ih []
      rw [h] at this
      simpa [isPlainOp] using this
    · simp only [nextSend]
      cases o with
      | sendOk u => simp [isPlainOp]
      | sendErr k =>
        by_cases hk : k = ErrKind.wouldBlock
        · subst hk
          simp only [if_pos rfl]
          rcases h : send_loop n rest with ⟨r, rest2, tr⟩
          have := ih rest
          rw [h] at this
          simpa [isPlainOp] using this
        · simp [hk, isPlainOp]

theorem decrypt_scoped_all_recvSide (s : Session) (m : SnmpMsg) (sp : SecurityParams) :
    ((decrypt_scoped s m sp).2).all isRecvSide = true := by
  unfold decrypt_scoped
  repeat' split
  all_goals rfl

theorem all_recvSide_cons {e : Event} {tr : List Event} (h1 : isRecvSide e = true)
    (h2 : tr.all isRecvSide = true) : (e :: tr).all isRecvSide = true := by
  simp [List.all_cons, h1, h2]

theorem all_recvSide_append {a b : List Event} (h1 : a.all isRecvSide = true)
    (h2 : b.all isRecvSide = true) : (a ++ b).all isRecvSide = true := by
  simp [List.all_append, h1, h2]

theorem process_decoded_all_recvSide (sid : Nat) (s : Session) (nitw : Bool) (m : SnmpMsg) :
    ((process_decoded sid s nitw m).2).all isRecvSide = true := by
  unfold process_decoded
  repeat' split
  all_goals
    first
    | rfl
    | exact all_recvSide_cons rfl (decrypt_scoped_all_recvSide s m _)
    | exact all_recvSide_append
        (all_recvSide_cons rfl (decrypt_scoped_all_recvSide s m _)) rfl

theorem decode_and_process_all_recvSide (sid : Nat) (s : Session) (nitw : Bool) (d : Datagram) :
    ((decode_and_process sid s nitw d).2).all isRecvSide = true := by
  unfold decode_and_process
  split
  · rfl
  · exact all_recvSide_cons rfl (process_decoded_all_recvSide sid s nitw _)

theorem process_datagram_all_recvSide (sid : Nat) (s : Session) (d : Datagram) :
    ((process_datagram sid s d).2).all isRecvSide = true := by
  unfold process_datagram
  repeat' split
  all_goals
    first
    | rfl
    | exact all_recvSide_cons rfl (decode_and_process_all_recvSide sid s false d)
    | exact all_recvSide_cons rfl (decode_and_process_all_recvSide sid s true d)
    | exact decode_and_process_all_recvSide sid s false d

theorem recv_loop_all_recvSide (sid : Nat) (n : Nat) (s : Session) (recvs : List RecvOutcome) :
    ((recv_loop sid n s recvs).trace).all isRecvSide = true := by
  induction n generalizing recvs with
  | zero => rfl
  | succ n ih =>
    unfold recv_loop
    rcases recvs with _ | ⟨o, rest⟩
    · simp only [nextRecv]
      rcases h : recv_loop sid n s [] with ⟨r, s2, rest2, tr⟩
      have := ih []
      rw [h] at this
      simpa [isRecvSide] using this
    · simp only [nextRecv]
      cases o with
      | recvErr k =>
        by_cases hk : k = ErrKind.wouldBlock
        · subst hk
          simpa [isRecvSide] using ih rest
        · simp [hk, isRecvSide]
      | recvData d =>
        have hevs := process_datagram_all_recvSide sid s d
        cases hst : (process_datagram sid s d).1 with
        | mismatch =>
          have := ih rest
          simp_all [isRecvSide, List.all_append]
        | ret r s2 =>
          simp_all [isRecvSide]

theorem all_plain_cons {e : Event} {tr : List Event} (h1 : isPlainOp e = true)
    (h2 : tr.all isPlainOp = true) : (e :: tr).all isPlainOp = true := by
  simp [List.all_cons, h1, h2]

/-- The trace of `send_msg` is the transmission marker for the input
message, followed by one parameter-embedding event for parameters built
from the session (placeholder auth params, session username, engine id
and clock), surrounded only by events that are neither transmissions
nor embeddings. -/
theorem send_msg_shape (m : SnmpMsg) (s : Session) (sends : List SendOutcome) :
    ∃ sp1 pre post,
      (send_msg m s sends).trace =
        Event.sendMsgStart m :: (pre ++ Event.embedSecurityParams sp1 :: post) ∧
      pre.all isPlainOp = true ∧ post.all isPlainOp = true ∧
      sp1.username = s.username ∧ sp1.engine_id = s.engine_id ∧
      sp1.engine_boots = s.engine_boots ∧ sp1.engine_time = s.engine_time ∧
      sp1.auth_params = [] := by
  have hloop := send_loop_all_plain MAX_RETRIES sends
  rcases hpk : s.priv_key_and_salt with _ | ⟨pk, salt⟩
  · rcases hak : s.auth_key with _ | ak
    · refine ⟨build_security_params s, [],
        Event.serialize :: (send_loop MAX_RETRIES sends).2.2,
        ?_, rfl, all_plain_cons rfl hloop, rfl, rfl, rfl, rfl, rfl⟩
      simp [send_msg, hpk, hak]
    · rcases hoe : ak.out_err with _ | k
      · refine ⟨build_security_params s, [],
          Event.setAuthFlag :: Event.serialize :: Event.sign ::
            (send_loop MAX_RETRIES sends).2.2,
          ?_, rfl, all_plain_cons rfl (all_plain_cons rfl (all_plain_cons rfl hloop)),
          rfl, rfl, rfl, rfl, rfl⟩
        simp [send_msg, hpk, hak, hoe]
      · refine ⟨build_security_params s, [], [Event.setAuthFlag, Event.serialize],
          ?_, rfl, rfl, rfl, rfl, rfl, rfl, rfl⟩
        simp [send_msg, hpk, hak, hoe]
  · rcases hsc : m.scoped_pdu_data with vbs | ct
    · rcases hak : s.auth_key with _ | ak
      · refine ⟨{ build_security_params s with
            priv_params := (pk.encrypt vbs (build_security_params s) salt).2 },
          [Event.encryptScopedPdu],
          Event.serialize :: (send_loop MAX_RETRIES sends).2.2,
          ?_, rfl, all_plain_cons rfl hloop, rfl, rfl, rfl, rfl, rfl⟩
        simp [send_msg, hpk, hak, hsc]
      · rcases hoe : ak.out_err with _ | k
        · refine ⟨{ build_security_params s with
              priv_params := (pk.encrypt vbs (build_security_params s) salt).2 },
            [Event.encryptScopedPdu],
            Event.setAuthFlag :: Event.serialize :: Event.sign ::
              (send_loop MAX_RETRIES sends).2.2,
            ?_, rfl, all_plain_cons rfl (all_plain_cons rfl (all_plain_cons rfl hloop)),
            rfl, rfl, rfl, rfl, rfl⟩
          simp [send_msg, hpk, hak, hsc, hoe]
        · refine ⟨{ build_security_params s with
              priv_params := (pk.encrypt vbs (build_security_params s) salt).2 },
            [Event.encryptScopedPdu], [Event.setAuthFlag, Event.serialize],
            ?_, rfl, rfl, rfl, rfl, rfl, rfl, rfl⟩
          simp [send_msg, hpk, hak, hsc, hoe]
    · rcases hak : s.auth_key with _ | ak
      · refine ⟨build_security_params s, [Event.encryptScopedPdu],
          Event.serialize :: (send_loop MAX_RETRIES sends).2.2,
          ?_, rfl, all_plain_cons rfl hloop, rfl, rfl, rfl, rfl, rfl⟩
        simp [send_msg, hpk, hak, hsc]
      · rcases hoe : ak.out_err with _ | k
        · refine ⟨build_security_params s, [Event.encryptScopedPdu],
            Event.setAuthFlag :: Event.serialize :: Event.sign ::
              (send_loop MAX_RETRIES sends).2.2,
            ?_, rfl, all_plain_cons rfl (all_plain_cons rfl (all_plain_cons rfl hloop)),
            rfl, rfl, rfl, rfl, rfl⟩
          simp [send_msg, hpk, hak, hsc, hoe]
        · refine ⟨build_security_params s, [Event.encryptScopedPdu],
            [Event.setAuthFlag, Event.serialize],
            ?_, rfl, rfl, rfl, rfl, rfl, rfl, rfl⟩
          simp [send_msg, hpk, hak, hsc, hoe]

/-- `send_msg` performs exactly one transmission, of its input message. -/
theorem send_msg_transmitInputs (m : SnmpMsg) (s : Session) (sends : List SendOutcome) :
    transmitInputs (send_msg m s sends).trace = [m] := by
  obtain ⟨sp1, pre, post, htr, hpre, hpost, -, -, -, -, -⟩ := send_msg_shape m s sends
  have h1 := transmitInputs_of_plain hpre
  have h2 := transmitInputs_of_plain hpost
  rw [htr]
  simp only [transmitInputs, List.filterMap_cons, List.filterMap_append] at h1 h2 ⊢
  simp [h1, h2]

/-- `send_msg` embeds exactly one set of security parameters, built
from the session's current state. -/
theorem send_msg_embeddedParams (m : SnmpMsg) (s : Session) (sends : List SendOutcome) :
    ∃ sp1, embeddedParams (send_msg m s sends).trace = [sp1] ∧
      sp1.username = s.username ∧ sp1.engine_id = s.engine_id ∧
      sp1.engine_boots = s.engine_boots ∧ sp1.engine_time = s.engine_time ∧
      sp1.auth_params = [] := by
  obtain ⟨sp1, pre, post, htr, hpre, hpost, h3, h4, h5, h6, h7⟩ := send_msg_shape m s sends
  refine ⟨sp1, ?_, h3, h4, h5, h6, h7⟩
  have h1 := embeddedParams_of_plain hpre
  have h2 := embeddedParams_of_plain hpost
  rw [htr]
  simp only [embeddedParams, List.filterMap_cons, List.filterMap_append] at h1 h2 ⊢
  simp [h1, h2]

/-- `send_msg` never changes the message id. -/
theorem send_msg_id (m : SnmpMsg) (s : Session) (sends : List SendOutcome) :
    (send_msg m s sends).msg.id = m.id := by
  simp only [send_msg]
  repeat' split
  all_goals rfl

theorem send_loop_ok (u : Nat) (rest : List SendOutcome) :
    send_loop MAX_RETRIES (.sendOk u :: rest) = (.ok u, rest, [.sendAttempt]) := rfl

/-- When signing succeeds and the first socket send succeeds, `send_msg`
returns that outcome and consumes exactly one send event. -/
theorem send_msg_sent_ok {s : Session} (m : SnmpMsg) (u : Nat) (rest : List SendOutcome)
    (h : signOk s) :
    (send_msg m s (.sendOk u :: rest)).result = .ok u ∧
    (send_msg m s (.sendOk u :: rest)).sends = rest := by
  rcases hak : s.auth_key with _ | ak
  · rcases hpk : s.priv_key_and_salt with _ | ⟨pk, salt⟩ <;>
      rcases hsc : m.scoped_pdu_data with vbs | ct <;>
      simp [send_msg, hak, hpk, hsc, send_loop_ok]
  · have hoe := h ak hak
    rcases hpk : s.priv_key_and_salt with _ | ⟨pk, salt⟩ <;>
      rcases hsc : m.scoped_pdu_data with vbs | ct <;>
      simp [send_msg, hak, hpk, hsc, hoe, send_loop_ok]

theorem all_mono {p q : Event → Bool} (h : ∀ e, p e = true → q e = true) :
    ∀ {tr : List Event}, tr.all p = true → tr.all q = true := by
  intro tr htr
  induction tr with
  | nil => rfl
  | cons e tr ih =>
    simp only [List.all_cons, Bool.and_eq_true] at htr ⊢
    exact ⟨h e htr.1, ih htr.2⟩

theorem all_processOp_cons {e : Event} {tr : List Event} (h1 : isProcessOp e = true)
    (h2 : tr.all isProcessOp = true) : (e :: tr).all isProcessOp = true := by
  simp [List.all_cons, h1, h2]

theorem all_processOp_append {a b : List Event} (h1 : a.all isProcessOp = true)
    (h2 : b.all isProcessOp = true) : (a ++ b).all isProcessOp = true := by
  simp [List.all_append, h1, h2]

theorem decrypt_scoped_all_processOp (s : Session) (m : SnmpMsg) (sp : SecurityParams) :
    ((decrypt_scoped s m sp).2).all isProcessOp = true := by
  unfold decrypt_scoped
  repeat' split
  all_goals rfl

theorem process_decoded_all_processOp (sid : Nat) (s : Session) (nitw : Bool) (m : SnmpMsg) :
    ((process_decoded sid s nitw m).2).all isProcessOp = true := by
  unfold process_decoded
  repeat' split
  all_goals
    first
    | rfl
    | exact all_processOp_cons rfl (decrypt_scoped_all_processOp s m _)
    | exact all_processOp_append
        (all_processOp_cons rfl (decrypt_scoped_all_processOp s m _)) rfl

theorem decode_and_process_all_processOp (sid : Nat) (s : Session) (nitw : Bool)
    (d : Datagram) : ((decode_and_process sid s nitw d).2).all isProcessOp = true := by
  unfold decode_and_process
  split
  · rfl
  · exact all_processOp_cons rfl (process_decoded_all_processOp sid s nitw _)

theorem process_datagram_all_processOp (sid : Nat) (s : Session) (d : Datagram) :
    ((process_datagram sid s d).2).all isProcessOp = true := by
  unfold process_datagram
  repeat' split
  all_goals
    first
    | rfl
    | exact all_processOp_cons rfl (decode_and_process_all_processOp sid s false d)
    | exact all_processOp_cons rfl (decode_and_process_all_processOp sid s true d)
    | exact decode_and_process_all_processOp sid s false d

theorem processOp_no_recvAttempt {tr : List Event} (h : tr.all isProcessOp = true) :
    tr.filter isRecvAttempt = [] := by
  rw [List.filter_eq_nil_iff]
  intro e he
  have := (List.all_eq_true.mp h) e he
  cases e <;> simp_all [isProcessOp, isRecvAttempt]

/-! ### Behavior of `process_datagram` on the cases the claims single out -/

/-- A datagram carrying the resync signal: verification says
`NotInTimeWindow`, the oid check passes, so the clock is adopted and
`ConnectionReset` is raised. -/
theorem process_datagram_resync {s : Session} {sid : Nat} {d : Datagram} {m m2 : SnmpMsg}
    {sp : SecurityParams} {vbs : List (List Nat)} (ak : AuthKey)
    (hak : s.auth_key = some ak)
    (hauth : d.auth = .notInTimeWindow)
    (hdec : d.decoded = some m)
    (hid : m.id = sid)
    (hsp : m.security_params = some sp)
    (hdc : (decrypt_scoped s m sp).1 = .ok m2)
    (hpdu : m2.scoped_pdu_data = .plaintextPdu (oid_usm_stats_not_in_time_window :: vbs)) :
    (process_datagram sid s d).1 =
      .ret (.err .connectionReset)
        { s with engine_boots := sp.engine_boots, engine_time := sp.engine_time } := by
  simp [process_datagram, hak, hauth, decode_and_process, hdec, process_decoded, hid, hsp,
    hdc, hpdu, ScopedPduData.plaintext]

/-- A datagram carrying a `NotInTimeWindow` verification failure whose
first reported object is not `usmStatsNotInTimeWindow`: fail with
`InvalidData` and leave the session untouched. -/
theorem process_datagram_wrong_oid {s : Session} {sid : Nat} {d : Datagram} {m m2 : SnmpMsg}
    {sp : SecurityParams} {vb0 : List Nat} {vbs : List (List Nat)} (ak : AuthKey)
    (hak : s.auth_key = some ak)
    (hauth : d.auth = .notInTimeWindow)
    (hdec : d.decoded = some m)
    (hid : m.id = sid)
    (hsp : m.security_params = some sp)
    (hdc : (decrypt_scoped s m sp).1 = .ok m2)
    (hpdu : m2.scoped_pdu_data = .plaintextPdu (vb0 :: vbs))
    (hvb : vb0 ≠ oid_usm_stats_not_in_time_window) :
    (process_datagram sid s d).1 = .ret (.err .invalidData) s := by
  simp [process_datagram, hak, hauth, decode_and_process, hdec, process_decoded, hid, hsp,
    hdc, hpdu, ScopedPduData.plaintext, hvb]

/-- A datagram carrying a `NotInTimeWindow` verification failure whose
plaintext PDU is unavailable or has no var binds: the oid check panics. -/
theorem process_datagram_nitw_panics {s : Session} {sid : Nat} {d : Datagram} {m m2 : SnmpMsg}
    {sp : SecurityParams} (ak : AuthKey)
    (hak : s.auth_key = some ak)
    (hauth : d.auth = .notInTimeWindow)
    (hdec : d.decoded = some m)
    (hid : m.id = sid)
    (hsp : m.security_params = some sp)
    (hdc : (decrypt_scoped s m sp).1 = .ok m2)
    (hpdu : m2.scoped_pdu_data.plaintext = none ∨ m2.scoped_pdu_data.plaintext = some []) :
    (process_datagram sid s d).1 = .ret .panicked s := by
  rcases hpdu with h | h <;>
    simp [process_datagram, hak, hauth, decode_and_process, hdec, process_decoded, hid, hsp,
      hdc, h]

/-- A decodable datagram whose id does not match is discarded, provided
verification (when an auth key is configured) did not already fail. -/
theorem process_datagram_mismatch {s : Session} {sid : Nat} {d : Datagram} {m : SnmpMsg}
    (hdec : d.decoded = some m)
    (hid : m.id ≠ sid)
    (hpass : s.auth_key = none ∨ d.auth ≠ .authErr) :
    (process_datagram sid s d).1 = .mismatch := by
  rcases hak : s.auth_key with _ | ak
  · simp [process_datagram, hak, decode_and_process, hdec, process_decoded, hid]
  · rcases hpass with h | h
    · rw [hak] at h; cases h
    · cases hauth : d.auth with
      | authErr => exact absurd hauth h
      | ok =>
        simp [process_datagram, hak, hauth, decode_and_process, hdec, process_decoded, hid]
      | notInTimeWindow =>
        simp [process_datagram, hak, hauth, decode_and_process, hdec, process_decoded, hid]

/-- Whenever `process_datagram` returns, the session is either untouched
or set to the clock of the datagram's decoded security parameters — and
in the latter case, when an auth key is configured, the datagram did not
fail verification. -/
theorem process_datagram_session {s s2 : Session} {sid : Nat} {d : Datagram} {r : RecvResult}
    (h : (process_datagram sid s d).1 = .ret r s2) :
    s2 = s ∨
    ∃ m sp, d.decoded = some m ∧ m.security_params = some sp ∧
      s2 = { s with engine_boots := sp.engine_boots, engine_time := sp.engine_time } ∧
      (s.auth_key.isSome = true → d.auth ≠ .authErr) := by
  unfold process_datagram decode_and_process process_decoded at h
  repeat' split at h
  all_goals
    first
    | (cases h <;> exact Or.inl rfl)
    | skip
  all_goals
    (cases h
     exact Or.inr ⟨_, _, by assumption, by assumption, rfl, by simp_all⟩)

/-! ### Stepping the receive loop -/

/-- One loop iteration on a datagram whose processing returns. -/
theorem recv_loop_ret {sid n : Nat} {s s2 : Session} {d : Datagram}
    {rest : List RecvOutcome} {r : RecvResult}
    (h : (process_datagram sid s d).1 = .ret r s2) :
    recv_loop sid (n + 1) s (.recvData d :: rest) =
      ⟨r, s2, rest, .recvAttempt :: (process_datagram sid s d).2⟩ := by
  unfold recv_loop
  simp [nextRecv, h]

/-- One loop iteration on a datagram that is discarded as mismatched. -/
theorem recv_loop_mismatch_step {sid n : Nat} {s : Session} {d : Datagram}
    {rest : List RecvOutcome}
    (h : (process_datagram sid s d).1 = .mismatch) :
    recv_loop sid (n + 1) s (.recvData d :: rest) =
      { recv_loop sid n s rest with
        trace := .recvAttempt ::
          ((process_datagram sid s d).2 ++ (recv_loop sid n s rest).trace) } := by
  conv_lhs => rw [recv_loop]
  simp [nextRecv, h]

/-- `recv_msg` on a datagram whose processing returns. -/
theorem recv_msg_ret {sid : Nat} {s s2 : Session} {d : Datagram}
    {rest : List RecvOutcome} {r : RecvResult}
    (h : (process_datagram sid s d).1 = .ret r s2) :
    recv_msg sid s (.recvData d :: rest) =
      ⟨r, s2, rest, .recvAttempt :: (process_datagram sid s d).2⟩ :=
  recv_loop_ret h

/-- Across one whole receive loop, the session is either untouched or
set to the clock of a processed datagram's decoded security parameters;
when an auth key is configured, that datagram did not fail
verification. -/
theorem recv_loop_session (sid : Nat) (n : Nat) (s : Session) (recvs : List RecvOutcome) :
    (recv_loop sid n s recvs).session = s ∨
    ∃ d m sp, RecvOutcome.recvData d ∈ recvs ∧ d.decoded = some m ∧
      m.security_params = some sp ∧
      (recv_loop sid n s recvs).session =
        { s with engine_boots := sp.engine_boots, engine_time := sp.engine_time } ∧
      (s.auth_key.isSome = true → d.auth ≠ .authErr) := by
  induction n generalizing recvs with
  | zero => exact Or.inl rfl
  | succ n ih =>
    rcases recvs with _ | ⟨o, rest⟩
    · rcases ih [] with h | ⟨d, m, sp, hmem, _⟩
      · left
        conv_lhs => rw [recv_loop]
        simpa [nextRecv] using h
      · cases hmem
    · cases o with
      | recvErr k =>
        by_cases hk : k = ErrKind.wouldBlock
        · subst hk
          rcases ih rest with h | ⟨d, m, sp, hmem, hdec, hsp, hsess, hpass⟩
          · left
            conv_lhs => rw [recv_loop]
            simpa [nextRecv] using h
          · right
            refine ⟨d, m, sp, List.mem_cons_of_mem _ hmem, hdec, hsp, ?_, hpass⟩
            conv_lhs => rw [recv_loop]
            simpa [nextRecv] using hsess
        · left
          conv_lhs => rw [recv_loop]
          simp [nextRecv, hk]
      | recvData d =>
        cases hst : (process_datagram sid s d).1 with
        | mismatch =>
          rcases ih rest with h | ⟨d2, m, sp, hmem, hdec, hsp, hsess, hpass⟩
          · left
            rw [recv_loop_mismatch_step hst]
            exact h
          · right
            refine ⟨d2, m, sp, List.mem_cons_of_mem _ hmem, hdec, hsp, ?_, hpass⟩
            rw [recv_loop_mismatch_step hst]
            exact hsess
        | ret r s2 =>
          rcases process_datagram_session hst with h | ⟨m, sp, hdec, hsp, hs2, hpass⟩
          · left
            rw [recv_loop_ret hst]
            exact h
          · right
            refine ⟨d, m, sp, List.mem_cons_self _ _, hdec, hsp, ?_, hpass⟩
            rw [recv_loop_ret hst]
            exact hs2

/-! ### Unfolding `send_request` -/

/-- The trace of `send_request` always starts with the trace of the
first `send_msg`. -/
theorem send_request_trace_head (msg : SnmpMsg) (s : Session) (env : Env) :
    ∃ tail, (send_request msg s env).trace = (send_msg msg s env.sends).trace ++ tail := by
  simp only [send_request, send_request_fuel]
  split
  · exact ⟨[], by simp⟩
  · split
    · simp only [List.append_assoc]
      exact ⟨_, rfl⟩
    · simp only [List.append_assoc]
      exact ⟨_, rfl⟩

/-- The first transmission of a `send_request` call is its input
message. -/
theorem send_request_first_transmit (msg : SnmpMsg) (s : Session) (env : Env) :
    (transmitInputs (send_request msg s env).trace).head? = some msg := by
  obtain ⟨tail, htr⟩ := send_request_trace_head msg s env
  rw [htr, transmitInputs_append, send_msg_transmitInputs]
  rfl

/-- The first parameter embedding of a `send_request` call carries the
session's current engine boots/time. -/
theorem send_request_first_embed (msg : SnmpMsg) (s : Session) (env : Env) :
    ∃ sp1, (embeddedParams (send_request msg s env).trace).head? = some sp1 ∧
      sp1.engine_boots = s.engine_boots ∧ sp1.engine_time = s.engine_time := by
  obtain ⟨tail, htr⟩ := send_request_trace_head msg s env
  obtain ⟨sp1, he, _, _, hb, ht, _⟩ := send_msg_embeddedParams msg s env.sends
  refine ⟨sp1, ?_, hb, ht⟩
  rw [htr, embeddedParams_append, he]
  rfl

/-- One full resync round: with a first exchange that sends
successfully and receives a resync datagram, `send_request` adopts the
datagram's clock and re-runs itself completely on the retained original
message and the remaining environment. -/
theorem send_request_resync_unfold {msg : SnmpMsg} {s : Session} {env : Env}
    {u : Nat} {sends' : List SendOutcome} {d : Datagram} {rest : List RecvOutcome}
    {m m2 : SnmpMsg} {sp : SecurityParams} {vbs : List (List Nat)} (ak : AuthKey)
    (hak : s.auth_key = some ak)
    (hsign : signOk s)
    (hsends : env.sends = .sendOk u :: sends')
    (hrecvs : env.recvs = .recvData d :: rest)
    (hauth : d.auth = .notInTimeWindow)
    (hdec : d.decoded = some m)
    (hid : m.id = msg.id)
    (hsp : m.security_params = some sp)
    (hdc : (decrypt_scoped s m sp).1 = .ok m2)
    (hpdu : m2.scoped_pdu_data = .plaintextPdu (oid_usm_stats_not_in_time_window :: vbs)) :
    send_request msg s env =
      { result := (send_request msg
          { s with engine_boots := sp.engine_boots, engine_time := sp.engine_time }
          ⟨sends', rest⟩).result
        session := (send_request msg
          { s with engine_boots := sp.engine_boots, engine_time := sp.engine_time }
          ⟨sends', rest⟩).session
        env := (send_request msg
          { s with engine_boots := sp.engine_boots, engine_time := sp.engine_time }
          ⟨sends', rest⟩).env
        trace := (send_msg msg s env.sends).trace ++
          (.recvAttempt :: (process_datagram msg.id s d).2) ++
          (send_request msg
            { s with engine_boots := sp.engine_boots, engine_time := sp.engine_time }
            ⟨sends', rest⟩).trace } := by
  rcases env with ⟨senv, renv⟩
  simp only at hsends hrecvs
  subst hsends
  subst hrecvs
  have hso := send_msg_sent_ok msg u sends' hsign
  have hrm : recv_msg msg.id s (.recvData d :: rest) =
      ⟨.err .connectionReset,
       { s with engine_boots := sp.engine_boots, engine_time := sp.engine_time },
       rest, .recvAttempt :: (process_datagram msg.id s d).2⟩ :=
    recv_msg_ret (process_datagram_resync ak hak hauth hdec hid hsp hdc hpdu)
  simp only [send_request, List.length_cons, send_request_fuel]
  rw [hso.1]
  simp only [send_msg_id, hrm, hso.2]

theorem processOp_plain : ∀ {e : Event}, isProcessOp e = true → isPlainOp e = true := by
  intro e h
  cases e <;> simp_all [isProcessOp, isPlainOp]

theorem send_loop_all_sendAttempt (n : Nat) (sends : List SendOutcome) :
    ((send_loop n sends).2.2).all isSendAttempt = true := by
  induction n generalizing sends with
  | zero => rfl
  | succ n ih =>
    unfold send_loop
    rcases sends with _ | ⟨o, rest⟩
    · simp only [nextSend]
      simpa [isSendAttempt] using ih []
    · simp only [nextSend]
      cases o with
      | sendOk u => rfl
      | sendErr k =>
        by_cases hk : k = ErrKind.wouldBlock
        · subst hk
          simpa [isSendAttempt] using ih rest
        · simp [hk, isSendAttempt]

theorem sendAttempt_no_sign {tr : List Event} (h : tr.all isSendAttempt = true) :
    tr.filter isSign = [] := by
  rw [List.filter_eq_nil_iff]
  intro e he
  have := (List.all_eq_true.mp h) e he
  cases e <;> simp_all [isSendAttempt, isSign]

theorem sendAttempt_no_setAuthFlag {tr : List Event} (h : tr.all isSendAttempt = true) :
    Event.setAuthFlag ∉ tr := by
  intro hmem
  have := (List.all_eq_true.mp h) _ hmem
  simp [isSendAttempt] at this

/-- The receive-path trace of a resync datagram: verification, decode,
security-parameter decode, decrypt events, then the clock adoption. -/
theorem process_datagram_resync_trace {s : Session} {sid : Nat} {d : Datagram}
    {m m2 : SnmpMsg} {sp : SecurityParams} {vbs : List (List Nat)} (ak : AuthKey)
    (hak : s.auth_key = some ak)
    (hauth : d.auth = .notInTimeWindow)
    (hdec : d.decoded = some m)
    (hid : m.id = sid)
    (hsp : m.security_params = some sp)
    (hdc : (decrypt_scoped s m sp).1 = .ok m2)
    (hpdu : m2.scoped_pdu_data = .plaintextPdu (oid_usm_stats_not_in_time_window :: vbs)) :
    (process_datagram sid s d).2 =
      .verifySig :: .decodeMsg :: .decodeSecParams ::
        ((decrypt_scoped s m sp).2 ++ [.adoptClock sp.engine_boots sp.engine_time]) := by
  simp [process_datagram, hak, hauth, decode_and_process, hdec, process_decoded, hid, hsp,
    hdc, hpdu, ScopedPduData.plaintext]

theorem cSession_signOk : signOk cSession := by
  intro ak h
  injection h with h2
  subst h2
  rfl

theorem cSessionPriv_signOk : signOk cSessionPriv := by
  intro ak h
  injection h with h2
  subst h2
  rfl

/-! ### Claim C1 -/

/-- C1 (counterexample): with two consecutive resync responses followed
by a normal one, `send_request` transmits three times — two automatic
retransmissions, not at most one — and returns the third exchange's
response instead of propagating the second resync as a terminal
failure. -/
theorem send_request_double_resync_counterexample :
    (transmitInputs (send_request cMsg cSession cEnvDoubleResync).trace).length = 3 ∧
    (send_request cMsg cSession cEnvDoubleResync).result = .ok (cOkMsg 5 102) :=
  ⟨rfl, rfl⟩

/-- C1 (amended): when `recv_msg` fails with the resync outcome
(`ConnectionReset`), `send_request` adopts the response clock and
re-invokes itself completely on the retained original (pre-mutation)
message: the first transmission of the recursive call is the retained
original. Because the recursive call is again a full `send_request`,
a second resync on the retry triggers a further retransmission — the
resync retry is unbounded recursion, not a single bounded retry. -/
theorem send_request_resync_retransmits
    {msg : SnmpMsg} {s : Session} {env : Env}
    {u : Nat} {sends' : List SendOutcome} {d : Datagram} {rest : List RecvOutcome}
    {m m2 : SnmpMsg} {sp : SecurityParams} {vbs : List (List Nat)} (ak : AuthKey)
    (hak : s.auth_key = some ak)
    (hsign : signOk s)
    (hsends : env.sends = .sendOk u :: sends')
    (hrecvs : env.recvs = .recvData d :: rest)
    (hauth : d.auth = .notInTimeWindow)
    (hdec : d.decoded = some m)
    (hid : m.id = msg.id)
    (hsp : m.security_params = some sp)
    (hdc : (decrypt_scoped s m sp).1 = .ok m2)
    (hpdu : m2.scoped_pdu_data = .plaintextPdu (oid_usm_stats_not_in_time_window :: vbs)) :
    (send_request msg s env).result =
      (send_request msg
        { s with engine_boots := sp.engine_boots, engine_time := sp.engine_time }
        ⟨sends', rest⟩).result ∧
    (send_request msg s env).trace =
      (send_msg msg s env.sends).trace ++
        (.recvAttempt :: (process_datagram msg.id s d).2) ++
        (send_request msg
          { s with engine_boots := sp.engine_boots, engine_time := sp.engine_time }
          ⟨sends', rest⟩).trace ∧
    (transmitInputs
      (send_request msg
        { s with engine_boots := sp.engine_boots, engine_time := sp.engine_time }
        ⟨sends', rest⟩).trace).head? = some msg := by
  have h := send_request_resync_unfold ak hak hsign hsends hrecvs hauth hdec hid hsp hdc hpdu
  refine ⟨?_, ?_, send_request_first_transmit _ _ _⟩
  · rw [h]
  · rw [h]

/-- C1 witness. -/
theorem send_request_resync_retransmits_witness :
    (transmitInputs (send_request cMsg
        { cSession with engine_boots := 5, engine_time := 100 }
        ⟨[.sendOk 30], [.recvData (cOkDatagram 5 102)]⟩).trace).head? = some cMsg :=
  (@send_request_resync_retransmits cMsg cSession cEnvSingleResync 30 [.sendOk 30]
    (cResyncDatagram 5 100) [.recvData (cOkDatagram 5 102)] (cReportMsg 5 100)
    (cReportMsg 5 100) (cRespParams 5 100) [] cAuthKey rfl cSession_signOk rfl rfl rfl rfl
    rfl rfl rfl rfl).2.2

/-! ### Claim C2 -/

/-- C2 (confirmed): on a `NotInTimeWindow` response whose first
reported object is exactly `usmStatsNotInTimeWindow` and which carries
clock `(sp.engine_boots, sp.engine_time)`, `send_request` adopts that
clock into the session before raising the resync signal, and the
retransmitted request's embedded `SecurityParams` (the second
parameter embedding of the call) carry exactly that corrected clock. -/
theorem resync_adopts_clock_before_retransmit
    {msg : SnmpMsg} {s : Session} {env : Env}
    {u : Nat} {sends' : List SendOutcome} {d : Datagram} {rest : List RecvOutcome}
    {m m2 : SnmpMsg} {sp : SecurityParams} {vbs : List (List Nat)} (ak : AuthKey)
    (hak : s.auth_key = some ak)
    (hsign : signOk s)
    (hsends : env.sends = .sendOk u :: sends')
    (hrecvs : env.recvs = .recvData d :: rest)
    (hauth : d.auth = .notInTimeWindow)
    (hdec : d.decoded = some m)
    (hid : m.id = msg.id)
    (hsp : m.security_params = some sp)
    (hdc : (decrypt_scoped s m sp).1 = .ok m2)
    (hpdu : m2.scoped_pdu_data = .plaintextPdu (oid_usm_stats_not_in_time_window :: vbs)) :
    Event.adoptClock sp.engine_boots sp.engine_time ∈ (send_request msg s env).trace ∧
    ∃ sp2, (embeddedParams (send_request msg s env).trace)[1]? = some sp2 ∧
      sp2.engine_boots = sp.engine_boots ∧ sp2.engine_time = sp.engine_time := by
  have h := send_request_resync_unfold ak hak hsign hsends hrecvs hauth hdec hid hsp hdc hpdu
  have ht : (send_request msg s env).trace =
      (send_msg msg s env.sends).trace ++
        (.recvAttempt :: (process_datagram msg.id s d).2) ++
        (send_request msg
          { s with engine_boots := sp.engine_boots, engine_time := sp.engine_time }
          ⟨sends', rest⟩).trace := by rw [h]
  have htr := process_datagram_resync_trace ak hak hauth hdec hid hsp hdc hpdu
  have hmid : embeddedParams
      (Event.recvAttempt :: (process_datagram msg.id s d).2) = [] :=
    embeddedParams_of_plain (recvSide_plain
      (all_recvSide_cons rfl (process_datagram_all_recvSide _ _ _)))
  obtain ⟨sp1, h1, -, -, -, -, -⟩ := send_msg_embeddedParams msg s env.sends
  obtain ⟨sp2, h2, hb2, ht2⟩ := send_request_first_embed msg
    { s with engine_boots := sp.engine_boots, engine_time := sp.engine_time } ⟨sends', rest⟩
  constructor
  · rw [ht, htr]
    simp [List.mem_append]
  · refine ⟨sp2, ?_, hb2, ht2⟩
    rw [ht, embeddedParams_append, embeddedParams_append, h1, hmid]
    simpa [List.head?_eq_getElem?] using h2

/-- C2 witness. -/
theorem resync_adopts_clock_witness :
    Event.adoptClock 5 100 ∈ (send_request cMsg cSession cEnvSingleResync).trace ∧
    ∃ sp2, (embeddedParams (send_request cMsg cSession cEnvSingleResync).trace)[1]? =
        some sp2 ∧ sp2.engine_boots = 5 ∧ sp2.engine_time = 100 :=
  @resync_adopts_clock_before_retransmit cMsg cSession cEnvSingleResync 30 [.sendOk 30]
    (cResyncDatagram 5 100) [.recvData (cOkDatagram 5 102)] (cReportMsg 5 100)
    (cReportMsg 5 100) (cRespParams 5 100) [] cAuthKey rfl cSession_signOk rfl rfl rfl rfl
    rfl rfl rfl rfl

/-! ### Claim C3 -/

/-- C3 (confirmed): when a resync retransmit is triggered, the second
transmission's input message (the message handed to `send_msg` before
any of its mutations) is exactly the caller's original message as it
was before encryption, parameter embedding or the auth flag were
applied — not the mutated wire form. -/
theorem resync_retransmits_original_premutation
    {msg : SnmpMsg} {s : Session} {env : Env}
    {u : Nat} {sends' : List SendOutcome} {d : Datagram} {rest : List RecvOutcome}
    {m m2 : SnmpMsg} {sp : SecurityParams} {vbs : List (List Nat)} (ak : AuthKey)
    (hak : s.auth_key = some ak)
    (hsign : signOk s)
    (hsends : env.sends = .sendOk u :: sends')
    (hrecvs : env.recvs = .recvData d :: rest)
    (hauth : d.auth = .notInTimeWindow)
    (hdec : d.decoded = some m)
    (hid : m.id = msg.id)
    (hsp : m.security_params = some sp)
    (hdc : (decrypt_scoped s m sp).1 = .ok m2)
    (hpdu : m2.scoped_pdu_data = .plaintextPdu (oid_usm_stats_not_in_time_window :: vbs)) :
    (transmitInputs (send_request msg s env).trace)[1]? = some msg := by
  have h := send_request_resync_unfold ak hak hsign hsends hrecvs hauth hdec hid hsp hdc hpdu
  have ht : (send_request msg s env).trace =
      (send_msg msg s env.sends).trace ++
        (.recvAttempt :: (process_datagram msg.id s d).2) ++
        (send_request msg
          { s with engine_boots := sp.engine_boots, engine_time := sp.engine_time }
          ⟨sends', rest⟩).trace := by rw [h]
  have hmid : transmitInputs
      (Event.recvAttempt :: (process_datagram msg.id s d).2) = [] :=
    transmitInputs_of_plain (recvSide_plain
      (all_recvSide_cons rfl (process_datagram_all_recvSide _ _ _)))
  have hhead := send_request_first_transmit msg
    { s with engine_boots := sp.engine_boots, engine_time := sp.engine_time } ⟨sends', rest⟩
  rw [ht, transmitInputs_append, transmitInputs_append, send_msg_transmitInputs, hmid]
  simpa [List.head?_eq_getElem?] using hhead

/-- C3 witness. -/
theorem resync_retransmits_original_witness :
    (transmitInputs (send_request cMsg cSession cEnvSingleResync).trace)[1]? = some cMsg :=
  @resync_retransmits_original_premutation cMsg cSession cEnvSingleResync 30 [.sendOk 30]
    (cResyncDatagram 5 100) [.recvData (cOkDatagram 5 102)] (cReportMsg 5 100)
    (cReportMsg 5 100) (cRespParams 5 100) [] cAuthKey rfl cSession_signOk rfl rfl rfl rfl
    rfl rfl rfl rfl

/-! ### Claim C4 -/

/-- C4 (counterexample): on a session with no auth key configured,
`recv_msg` overwrites the session's engine boots/time from a response
that was never cryptographically verified. -/
theorem unverified_response_updates_clock_counterexample :
    cSessionNoAuth.auth_key = none ∧
    cSessionNoAuth.engine_boots = 4 ∧ cSessionNoAuth.engine_time = 10 ∧
    (recv_msg 1 cSessionNoAuth [.recvData (cOkDatagram 7 9)]).session.engine_boots = 7 ∧
    (recv_msg 1 cSessionNoAuth [.recvData (cOkDatagram 7 9)]).session.engine_time = 9 ∧
    (recv_msg 1 cSessionNoAuth [.recvData (cOkDatagram 7 9)]).result = .ok (cOkMsg 7 9) :=
  ⟨rfl, rfl, rfl, rfl, rfl, rfl⟩

/-- C4 (amended): across any `recv_msg` call, the session's
`(engine_boots, engine_time)` is either left untouched or overwritten
with the values carried by the security parameters of a response
datagram that was processed to the adoption step; whenever an auth key
is configured, such a datagram passed signature verification (possibly
modulo the time-window check) — but when no auth key is configured,
values from completely unverified responses are adopted as well. -/
theorem recv_msg_clock_update_characterization
    (sid : Nat) (s : Session) (recvs : List RecvOutcome) :
    (recv_msg sid s recvs).session = s ∨
    ∃ d m sp, RecvOutcome.recvData d ∈ recvs ∧ d.decoded = some m ∧
      m.security_params = some sp ∧
      (recv_msg sid s recvs).session =
        { s with engine_boots := sp.engine_boots, engine_time := sp.engine_time } ∧
      (s.auth_key.isSome = true → d.auth ≠ .authErr) :=
  recv_loop_session sid MAX_RETRIES s recvs

/-! ### Claim C5 -/

/-- C5 (confirmed): a `NotInTimeWindow` verification outcome whose
first reported object is not `usmStatsNotInTimeWindow` makes
`send_request` fail with the authentication-failure error
(`InvalidData` carrying `NotInTimeWindow`), and no retransmission
happens: exactly one message is transmitted. -/
theorem wrong_oid_report_authentication_failure
    {msg : SnmpMsg} {s : Session} {env : Env}
    {u : Nat} {sends' : List SendOutcome} {d : Datagram} {rest : List RecvOutcome}
    {m m2 : SnmpMsg} {sp : SecurityParams} {vb0 : List Nat} {vbs : List (List Nat)}
    (ak : AuthKey)
    (hak : s.auth_key = some ak)
    (hsign : signOk s)
    (hsends : env.sends = .sendOk u :: sends')
    (hrecvs : env.recvs = .recvData d :: rest)
    (hauth : d.auth = .notInTimeWindow)
    (hdec : d.decoded = some m)
    (hid : m.id = msg.id)
    (hsp : m.security_params = some sp)
    (hdc : (decrypt_scoped s m sp).1 = .ok m2)
    (hpdu : m2.scoped_pdu_data = .plaintextPdu (vb0 :: vbs))
    (hvb : vb0 ≠ oid_usm_stats_not_in_time_window) :
    (send_request msg s env).result = .err .invalidData ∧
    (transmitInputs (send_request msg s env).trace).length = 1 := by
  rcases env with ⟨senv, renv⟩
  simp only at hsends hrecvs
  subst hsends
  subst hrecvs
  have hso := send_msg_sent_ok msg u sends' hsign
  have hrm : recv_msg msg.id s (.recvData d :: rest) =
      ⟨.err .invalidData, s, rest, .recvAttempt :: (process_datagram msg.id s d).2⟩ :=
    recv_msg_ret (process_datagram_wrong_oid ak hak hauth hdec hid hsp hdc hpdu hvb)
  have hmid : transmitInputs
      (Event.recvAttempt :: (process_datagram msg.id s d).2) = [] :=
    transmitInputs_of_plain (recvSide_plain
      (all_recvSide_cons rfl (process_datagram_all_recvSide _ _ _)))
  constructor
  · simp only [send_request, List.length_cons, send_request_fuel]
    rw [hso.1]
    simp only [send_msg_id, hrm]
  · simp only [send_request, List.length_cons, send_request_fuel]
    rw [hso.1]
    simp only [send_msg_id, hrm]
    rw [transmitInputs_append, send_msg_transmitInputs, hmid]
    rfl

/-- C5 witness. -/
theorem wrong_oid_report_witness :
    (send_request cMsg cSession
      ⟨[.sendOk 30], [.recvData cWrongOidDatagram]⟩).result = .err .invalidData ∧
    (transmitInputs (send_request cMsg cSession
      ⟨[.sendOk 30], [.recvData cWrongOidDatagram]⟩).trace).length = 1 :=
  @wrong_oid_report_authentication_failure cMsg cSession
    ⟨[.sendOk 30], [.recvData cWrongOidDatagram]⟩ 30 [] cWrongOidDatagram []
    { id := 1
      security_params := some (cRespParams 5 100)
      auth_flag := true
      scoped_pdu_data := .plaintextPdu [[1, 3, 6, 1, 6, 3, 15, 1, 1, 1, 0]] }
    { id := 1
      security_params := some (cRespParams 5 100)
      auth_flag := true
      scoped_pdu_data := .plaintextPdu [[1, 3, 6, 1, 6, 3, 15, 1, 1, 1, 0]] }
    (cRespParams 5 100) [1, 3, 6, 1, 6, 3, 15, 1, 1, 1, 0] [] cAuthKey rfl
    cSession_signOk rfl rfl rfl rfl rfl rfl rfl rfl (by decide)

/-! ### Claim C6 -/

/-- C6 (counterexample): on a concrete authenticated exchange, the
authenticated flag is set before serialization (and hence before the
signature is computed), contradicting the claimed outbound order
"serialize, then sign, then set the authenticated flag". -/
theorem auth_flag_before_serialize_counterexample :
    Event.setAuthFlag ∈ (send_msg cMsg cSession [.sendOk 30]).trace ∧
    Event.serialize ∈ (send_msg cMsg cSession [.sendOk 30]).trace ∧
    Event.sign ∈ (send_msg cMsg cSession [.sendOk 30]).trace ∧
    (send_msg cMsg cSession [.sendOk 30]).trace.findIdx isSetAuthFlag <
      (send_msg cMsg cSession [.sendOk 30]).trace.findIdx isSerialize := by
  decide

/-- C6 (amended): every exchange follows the fixed USM ordering,
except that outbound the authenticated flag is set after embedding the
security parameters and *before* serializing (so the signature covers
the flag): outbound = encrypt scoped payload → embed security params →
set authenticated flag → serialize → sign serialized bytes → transmit;
inbound = verify signature → decode message → decode security params →
decrypt scoped payload (→ adopt clock). -/
theorem usm_operation_ordering
    {s : Session} {msg : SnmpMsg} {ak : AuthKey} {pk : PrivKey} {salt : Nat}
    {vbs : List (List Nat)} {u : Nat} {sends' : List SendOutcome}
    {sid : Nat} {d : Datagram} {m : SnmpMsg} {sp : SecurityParams} {ct : List Nat}
    {pvbs : List (List Nat)}
    (hak : s.auth_key = some ak) (hoe : ak.out_err = none)
    (hpk : s.priv_key_and_salt = some (pk, salt))
    (hsc : msg.scoped_pdu_data = .plaintextPdu vbs)
    (hauth : d.auth = .ok) (hdec : d.decoded = some m) (hid : m.id = sid)
    (hsp : m.security_params = some sp)
    (hct : m.scoped_pdu_data = .encryptedPdu ct)
    (hdecr : pk.decrypt ct sp = some pvbs) :
    (send_msg msg s (.sendOk u :: sends')).trace =
      [.sendMsgStart msg, .encryptScopedPdu,
       .embedSecurityParams
         { build_security_params s with
           priv_params := (pk.encrypt vbs (build_security_params s) salt).2 },
       .setAuthFlag, .serialize, .sign, .sendAttempt] ∧
    (process_datagram sid s d).2 =
      [.verifySig, .decodeMsg, .decodeSecParams, .decryptPdu,
       .adoptClock sp.engine_boots sp.engine_time] := by
  constructor
  · simp [send_msg, hak, hoe, hpk, hsc, send_loop_ok]
  · simp [process_datagram, hak, hauth, decode_and_process, hdec, process_decoded, hid,
      hsp, decrypt_scoped, hpk, hct, hdecr, ScopedPduData.plaintext]

/-- C6 witness. -/
theorem usm_operation_ordering_witness :
    (send_msg cMsg cSessionPriv [.sendOk 30]).trace =
      [.sendMsgStart cMsg, .encryptScopedPdu,
       .embedSecurityParams
         { username := [117, 115, 114]
           engine_id := [128, 0, 1]
           engine_boots := 4
           engine_time := 10
           auth_params := []
           priv_params := [7, 7] },
       .setAuthFlag, .serialize, .sign, .sendAttempt] ∧
    (process_datagram 1 cSessionPriv cEncDatagram).2 =
      [.verifySig, .decodeMsg, .decodeSecParams, .decryptPdu, .adoptClock 5 102] :=
  @usm_operation_ordering cSessionPriv cMsg cAuthKey cPrivKey 5
    [[1, 3, 6, 1, 2, 1, 1, 1, 0]] 30 [] 1 cEncDatagram cEncMsg (cRespParams 5 102)
    [42, 43] [[1, 3, 6, 1, 2, 1, 1, 1, 0]] rfl rfl rfl rfl rfl rfl rfl rfl rfl rfl

/-! ### Claim C7 -/

/-- C7 (confirmed): two successfully decoded datagrams whose ids both
differ from the sent id are each discarded without being returned, each
consuming one receive attempt; with the retry budget of 2 exhausted and
no match, `recv_msg` returns `TimedOut` and leaves the session
untouched. -/
theorem mismatched_datagrams_timeout
    {s : Session} {sid : Nat} {d1 d2 : Datagram} {m1 m2 : SnmpMsg}
    {rest : List RecvOutcome}
    (hd1 : d1.decoded = some m1) (hm1 : m1.id ≠ sid)
    (hp1 : s.auth_key = none ∨ d1.auth ≠ .authErr)
    (hd2 : d2.decoded = some m2) (hm2 : m2.id ≠ sid)
    (hp2 : s.auth_key = none ∨ d2.auth ≠ .authErr) :
    (recv_msg sid s (.recvData d1 :: .recvData d2 :: rest)).result = .err .timedOut ∧
    (recv_msg sid s (.recvData d1 :: .recvData d2 :: rest)).session = s ∧
    (recv_msg sid s (.recvData d1 :: .recvData d2 :: rest)).recvs = rest ∧
    countRecvAttempts
      (recv_msg sid s (.recvData d1 :: .recvData d2 :: rest)).trace = 2 := by
  have h1 := process_datagram_mismatch hd1 hm1 hp1
  have h2 := process_datagram_mismatch hd2 hm2 hp2
  have hn1 := processOp_no_recvAttempt (process_datagram_all_processOp sid s d1)
  have hn2 := processOp_no_recvAttempt (process_datagram_all_processOp sid s d2)
  have e1 : recv_msg sid s (.recvData d1 :: .recvData d2 :: rest) =
      { recv_loop sid 1 s (.recvData d2 :: rest) with
        trace := .recvAttempt :: ((process_datagram sid s d1).2 ++
          (recv_loop sid 1 s (.recvData d2 :: rest)).trace) } :=
    recv_loop_mismatch_step h1
  have e2 : recv_loop sid 1 s (.recvData d2 :: rest) =
      { recv_loop sid 0 s rest with
        trace := .recvAttempt :: ((process_datagram sid s d2).2 ++
          (recv_loop sid 0 s rest).trace) } :=
    recv_loop_mismatch_step h2
  refine ⟨?_, ?_, ?_, ?_⟩
  · rw [e1, e2]; rfl
  · rw [e1, e2]; rfl
  · rw [e1, e2]; rfl
  · rw [e1, e2]
    simp [countRecvAttempts, List.filter_append, hn1, hn2, isRecvAttempt, recv_loop]

/-- C7 witness. -/
theorem mismatched_datagrams_timeout_witness :
    (recv_msg 1 cSession [.recvData cStrayDatagram, .recvData cStrayDatagram]).result =
      .err .timedOut ∧
    (recv_msg 1 cSession [.recvData cStrayDatagram, .recvData cStrayDatagram]).session =
      cSession ∧
    (recv_msg 1 cSession [.recvData cStrayDatagram, .recvData cStrayDatagram]).recvs = [] ∧
    countRecvAttempts
      (recv_msg 1 cSession
        [.recvData cStrayDatagram, .recvData cStrayDatagram]).trace = 2 :=
  @mismatched_datagrams_timeout cSession 1 cStrayDatagram cStrayDatagram
    (Option.get cStrayDatagram.decoded rfl) (Option.get cStrayDatagram.decoded rfl) []
    rfl (by decide) (Or.inr (by decide)) rfl (by decide) (Or.inr (by decide))

/-! ### Claim C8 -/

/-- C8 (confirmed): two consecutive transient (`WouldBlock`) socket
send failures exhaust the retry budget of 2: `send_msg` terminates with
`TimedOut` after exactly two send attempts, and a non-transient send
failure is returned immediately after a single attempt. -/
theorem send_retry_budget {msg : SnmpMsg} {s : Session} (hsign : signOk s) :
    (∀ rest : List SendOutcome,
      (send_msg msg s (.sendErr .wouldBlock :: .sendErr .wouldBlock :: rest)).result =
        .error .timedOut ∧
      countSendAttempts
        (send_msg msg s
          (.sendErr .wouldBlock :: .sendErr .wouldBlock :: rest)).trace = 2) ∧
    (∀ (k : ErrKind) (rest : List SendOutcome), k ≠ .wouldBlock →
      (send_msg msg s (.sendErr k :: rest)).result = .error k ∧
      countSendAttempts (send_msg msg s (.sendErr k :: rest)).trace = 1) := by
  have l1 : ∀ rest : List SendOutcome,
      send_loop MAX_RETRIES (.sendErr .wouldBlock :: .sendErr .wouldBlock :: rest) =
        (.error .timedOut, rest, [.sendAttempt, .sendAttempt]) := fun _ => rfl
  have l2 : ∀ (k : ErrKind) (rest : List SendOutcome), k ≠ .wouldBlock →
      send_loop MAX_RETRIES (.sendErr k :: rest) = (.error k, rest, [.sendAttempt]) := by
    intro k rest hk
    show send_loop (1 + 1) (.sendErr k :: rest) = _
    unfold send_loop
    simp [nextSend, hk]
  constructor
  · intro rest
    rcases hak : s.auth_key with _ | ak
    · rcases hpk : s.priv_key_and_salt with _ | ⟨pk, salt⟩ <;>
        rcases hsc : msg.scoped_pdu_data with vbs | ct <;>
        simp [send_msg, hak, hpk, hsc, l1, countSendAttempts, isSendAttempt]
    · have hoe := hsign ak hak
      rcases hpk : s.priv_key_and_salt with _ | ⟨pk, salt⟩ <;>
        rcases hsc : msg.scoped_pdu_data with vbs | ct <;>
        simp [send_msg, hak, hoe, hpk, hsc, l1, countSendAttempts, isSendAttempt]
  · intro k rest hk
    rcases hak : s.auth_key with _ | ak
    · rcases hpk : s.priv_key_and_salt with _ | ⟨pk, salt⟩ <;>
        rcases hsc : msg.scoped_pdu_data with vbs | ct <;>
        simp [send_msg, hak, hpk, hsc, l2 k rest hk, countSendAttempts, isSendAttempt]
    · have hoe := hsign ak hak
      rcases hpk : s.priv_key_and_salt with _ | ⟨pk, salt⟩ <;>
        rcases hsc : msg.scoped_pdu_data with vbs | ct <;>
        simp [send_msg, hak, hoe, hpk, hsc, l2 k rest hk, countSendAttempts, isSendAttempt]

/-- C8 witness. -/
theorem send_retry_budget_witness :
    ((send_msg cMsg cSession
        [.sendErr .wouldBlock, .sendErr .wouldBlock]).result = .error .timedOut ∧
      countSendAttempts
        (send_msg cMsg cSession
          [.sendErr .wouldBlock, .sendErr .wouldBlock]).trace = 2) ∧
    ((send_msg cMsg cSession [.sendErr (.other 5)]).result = .error (.other 5) ∧
      countSendAttempts (send_msg cMsg cSession [.sendErr (.other 5)]).trace = 1) :=
  ⟨(@send_retry_budget cMsg cSession cSession_signOk).1 [],
   (@send_retry_budget cMsg cSession cSession_signOk).2 (.other 5) [] (by decide)⟩

/-! ### Claim C9 -/

/-- C9 (confirmed): with no auth key configured, `send_msg` embeds
security parameters whose authentication-parameter field is the empty
placeholder, never sets the authenticated flag (the outbound message
keeps flag `false`), and computes no signature. -/
theorem no_auth_key_send_unauthenticated {msg : SnmpMsg} {s : Session}
    {sends : List SendOutcome}
    (hak : s.auth_key = none) (hfl : msg.auth_flag = false) :
    (send_msg msg s sends).msg.auth_flag = false ∧
    (∃ sp1, embeddedParams (send_msg msg s sends).trace = [sp1] ∧
      sp1.auth_params = []) ∧
    countSigns (send_msg msg s sends).trace = 0 ∧
    Event.setAuthFlag ∉ (send_msg msg s sends).trace := by
  obtain ⟨sp1, hemb, -, -, -, -, hap⟩ := send_msg_embeddedParams msg s sends
  have hsa := send_loop_all_sendAttempt MAX_RETRIES sends
  have hns := sendAttempt_no_sign hsa
  have hnf := sendAttempt_no_setAuthFlag hsa
  refine ⟨?_, ⟨sp1, hemb, hap⟩, ?_, ?_⟩
  · rcases hpk : s.priv_key_and_salt with _ | ⟨pk, salt⟩ <;>
      rcases hsc : msg.scoped_pdu_data with vbs | ct <;>
      simp [send_msg, hak, hpk, hsc, hfl]
  · rcases hpk : s.priv_key_and_salt with _ | ⟨pk, salt⟩ <;>
      rcases hsc : msg.scoped_pdu_data with vbs | ct <;>
      simp [send_msg, hak, hpk, hsc, countSigns, List.filter_append, hns, isSign]
  · rcases hpk : s.priv_key_and_salt with _ | ⟨pk, salt⟩ <;>
      rcases hsc : msg.scoped_pdu_data with vbs | ct <;>
      simp [send_msg, hak, hpk, hsc, List.mem_append, hnf]

/-- C9 witness. -/
theorem no_auth_key_send_witness :
    (send_msg cMsg cSessionNoAuth [.sendOk 30]).msg.auth_flag = false ∧
    (∃ sp1, embeddedParams (send_msg cMsg cSessionNoAuth [.sendOk 30]).trace = [sp1] ∧
      sp1.auth_params = []) ∧
    countSigns (send_msg cMsg cSessionNoAuth [.sendOk 30]).trace = 0 ∧
    Event.setAuthFlag ∉ (send_msg cMsg cSessionNoAuth [.sendOk 30]).trace :=
  @no_auth_key_send_unauthenticated cMsg cSessionNoAuth [.sendOk 30] rfl rfl

/-! ### Claim C10 -/

/-- C10 (confirmed): on the time-window path, when the (possibly
decrypted) scoped PDU's plaintext is unavailable or its var-bind list
is empty, the defense-in-depth oid check panics (`unwrap` on `None`)
instead of returning an error. -/
theorem time_window_check_panics
    {s : Session} {sid : Nat} {d : Datagram} {m m2 : SnmpMsg} {sp : SecurityParams}
    {rest : List RecvOutcome} (ak : AuthKey)
    (hak : s.auth_key = some ak)
    (hauth : d.auth = .notInTimeWindow)
    (hdec : d.decoded = some m)
    (hid : m.id = sid)
    (hsp : m.security_params = some sp)
    (hdc : (decrypt_scoped s m sp).1 = .ok m2)
    (hpdu : m2.scoped_pdu_data.plaintext = none ∨
      m2.scoped_pdu_data.plaintext = some []) :
    (recv_msg sid s (.recvData d :: rest)).result = .panicked := by
  rw [recv_msg_ret (process_datagram_nitw_panics ak hak hauth hdec hid hsp hdc hpdu)]

/-- C10 witness. -/
theorem time_window_check_panics_witness :
    (recv_msg 1 cSession [.recvData cNitwEncDatagram]).result = .panicked :=
  @time_window_check_panics cSession 1 cNitwEncDatagram cEncMsg cEncMsg
    (cRespParams 5 102) [] cAuthKey rfl rfl rfl rfl rfl rfl (Or.inl rfl)

end Msnmp
